import Mathlib

/-!
Verification development for the nylo repository.

Shallow embedding of the parts of the code that the claims concern:
  - the `/api/track` dedup cache and batch-ingestion handler
    (src/server/index.ts, `registerTrackingRoutes`);
  - the client-side delivery pipeline `sendBatch` with exponential backoff
    and circuit breaker (src/src/nylo.js);
  - the cross-domain token verification endpoint
    (src/server/index.ts, `registerWaiTagTrackingRoutes`);
  - the DNS domain-ownership verification utilities and routes
    (src/unnamed/part_000 and src/server/index.ts, `registerDnsVerificationRoutes`);
  - the client identity recovery `CrossDomainIdentity.getStoredIdentityData`
    (src/src/nylo.js).
-/

namespace Nylo

/-! ## Dedup cache and `/api/track` handler (src/server/index.ts lines 174-275)

An inbound tracking event as the handler destructures it.  JavaScript falsy
string fields (absent, `undefined`, `''`) are modelled as the empty string:
the handler's guard is `if (!sessionId || !eventType || !domain) continue`.
`timestampStr` is the value of `timestamp ? String(timestamp) : ''`. -/
structure TrackEvent where
  sessionId : String
  eventType : String
  domain : String
  timestampStr : String
deriving DecidableEq, Repr

/-- The dedup string `${sessionId}:${eventType}:${eventTimestampStr}`.
The source hashes this string with SHA-256 and uses the hex digest as the
cache key; SHA-256 is modelled as an injective function, so the pre-image
string itself serves as the key. -/
def dedupKey (sessionId eventType timestampStr : String) : String :=
  sessionId ++ ":" ++ eventType ++ ":" ++ timestampStr

def TrackEvent.key (ev : TrackEvent) : String :=
  dedupKey ev.sessionId ev.eventType ev.timestampStr

/-- The in-memory `dedupCache : Map<string, number>` (key to expireAt),
modelled as an association list. -/
def DedupCache := List (String × Nat)

/-- `dedupCache.get(key)` (returns the entry if the key is present). -/
def cacheGet (cache : List (String × Nat)) (key : String) : Option Nat :=
  (cache.find? (fun p => p.1 == key)).map (fun p => p.2)

/-- `dedupCache.set(key, v)`: replaces the entry when present, appends otherwise. -/
def cacheSet (cache : List (String × Nat)) (key : String) (v : Nat) :
    List (String × Nat) :=
  if (cache.find? (fun p => p.1 == key)).isSome then
    cache.map (fun p => if p.1 == key then (key, v) else p)
  else
    cache ++ [(key, v)]

/-- Server-side state touched by the `/api/track` handler: the process-wide
dedup cache and the interactions persisted through `storage.createInteraction`
(only the stored event itself matters to the claims). -/
structure TrackState where
  dedupCache : List (String × Nat)
  interactions : List TrackEvent
deriving DecidableEq, Repr

/-- One iteration of the `for (const eventItem of events)` loop.
`window` is `DEDUP_WINDOW_MS`, `now` is `Date.now()` at the check, and
`storageOk` says whether `storage.createInteraction` succeeds (a throwing
storage call is caught; the event is merely not counted).  Returns the new
state and whether `processedCount` was incremented. -/
def processEvent (window : Nat) (st : TrackState) (ev : TrackEvent) (now : Nat)
    (storageOk : Bool) : TrackState × Bool :=
  if ev.sessionId = "" ∨ ev.eventType = "" ∨ ev.domain = "" then
    (st, false)
  else
    let key := ev.key
    let skip :=
      match cacheGet st.dedupCache key with
      | some expireAt => decide (now < expireAt)
      | none => false
    if skip then
      (st, false)
    else
      let cache1 := cacheSet st.dedupCache key (now + window)
      if storageOk then
        (⟨cache1, st.interactions ++ [ev]⟩, true)
      else
        (⟨cache1, st.interactions⟩, false)

/-- The loop body folded over the whole `events` array; each event is paired
with the outcome of its `createInteraction` call.  Returns the final state and
`processedCount`. -/
def trackBatch (window : Nat) (st : TrackState) (events : List (TrackEvent × Bool))
    (now : Nat) : TrackState × Nat :=
  events.foldl
    (fun acc p =>
      let step := processEvent window acc.1 p.1 now p.2
      (step.1, acc.2 + if step.2 then 1 else 0))
    (st, 0)

/-- The JSON response of `POST /api/track` (the 400 branch carries only a
message; `success` is modelled as `false` there). -/
structure TrackResponse where
  status : Nat
  success : Bool
  eventsProcessed : Nat
  totalEvents : Nat
deriving DecidableEq, Repr

/-- The `POST /api/track` handler: 400 when no events are provided, otherwise
processes every event and replies `{success: true, eventsProcessed, totalEvents}`
with HTTP 200 regardless of individual storage failures. -/
def trackHandler (window : Nat) (st : TrackState) (events : List (TrackEvent × Bool))
    (now : Nat) : TrackState × TrackResponse :=
  if events.isEmpty then
    (st, ⟨400, false, 0, 0⟩)
  else
    let result := trackBatch window st events now
    (result.1, ⟨200, true, result.2, events.length⟩)

/-! ## Client delivery pipeline `sendBatch` (src/src/nylo.js lines 736-800)

Constants from the SDK's `config` object and from the literals in `sendBatch`. -/

def batchSize : Nat := 25
def maxRetries : Nat := 3
def circuitBreakerCooldownMs : Nat := 30000

/-- The pipeline state mutated by `sendBatch` and its timers: the module-level
`retryCount` and `isCircuitBreakerOpen`, `state.eventQueue`, `state.retryQueue`,
and the two metrics the pipeline updates.  Events are opaque to the pipeline
logic, so the queues are polymorphic in the event type. -/
structure PipelineState (α : Type) where
  retryCount : Nat
  isCircuitBreakerOpen : Bool
  eventQueue : List α
  retryQueue : List α
  errors : Nat
  batchesSent : Nat
deriving DecidableEq, Repr

/-- What the `catch` branch of a failed send schedules: either a retry timer
with the computed delay, or the circuit-breaker cooldown timer. -/
inductive FailEffect where
  | retryScheduled (delayMs : Nat)
  | breakerOpened (cooldownMs : Nat)
deriving DecidableEq, Repr

/-- `sendBatch` issues a network request exactly when neither early return
fires: the queue is non-empty and the circuit breaker is closed. -/
def sendAttemptOccurs {α : Type} (s : PipelineState α) : Bool :=
  !s.eventQueue.isEmpty && !s.isCircuitBreakerOpen

/-- A `sendBatch` call whose fetch fails (s must satisfy `sendAttemptOccurs`
for the attempt to happen at all).  The batch is spliced off the queue before
the request; the `catch` handler increments `errors`, and either pushes the
batch onto `retryQueue`, schedules a retry after `Math.pow(2, retryCount) * 1000`
milliseconds and increments `retryCount`, or — when `retryCount` has reached
`maxRetries` — opens the circuit breaker for a 30000 ms cooldown, dropping the
spliced batch. -/
def sendBatchFail {α : Type} (s : PipelineState α) : PipelineState α × FailEffect :=
  let batch := s.eventQueue.take batchSize
  let rest := s.eventQueue.drop batchSize
  if s.retryCount < maxRetries then
    ({ s with eventQueue := rest, retryQueue := s.retryQueue ++ batch,
              retryCount := s.retryCount + 1, errors := s.errors + 1 },
     FailEffect.retryScheduled (2 ^ s.retryCount * 1000))
  else
    ({ s with eventQueue := rest, isCircuitBreakerOpen := true,
              errors := s.errors + 1 },
     FailEffect.breakerOpened circuitBreakerCooldownMs)

/-- A `sendBatch` call whose fetch succeeds: the counter resets, the breaker
closes and the batch-sent metric is recorded. -/
def sendBatchSuccess {α : Type} (s : PipelineState α) : PipelineState α :=
  { s with eventQueue := s.eventQueue.drop batchSize, retryCount := 0,
           isCircuitBreakerOpen := false, batchesSent := s.batchesSent + 1 }

/-- The retry timer callback: splices up to one batch off `retryQueue` back to
the front of `eventQueue` (and then calls `sendBatch` when it moved anything). -/
def retryTimerFire {α : Type} (s : PipelineState α) : PipelineState α :=
  { s with retryQueue := s.retryQueue.drop batchSize,
           eventQueue := s.retryQueue.take batchSize ++ s.eventQueue }

/-- The cooldown timer callback: closes the breaker and resets the counter. -/
def cooldownTimerFire {α : Type} (s : PipelineState α) : PipelineState α :=
  { s with isCircuitBreakerOpen := false, retryCount := 0 }

/-- One failed attempt followed by its scheduled retry requeue. -/
def failThenRequeue {α : Type} (s : PipelineState α) : PipelineState α :=
  retryTimerFire (sendBatchFail s).1

/-! ## Cross-domain token verification endpoint
(src/server/index.ts lines 455-503, `POST /api/tracking/verify-cross-domain-token`) -/

/-- The shape the endpoint looks for in a decoded token:
`JSON.parse(Buffer.from(token, 'base64').toString('utf-8'))`.  Fields are
`Option` with `none` for absent-or-falsy values (`decoded.waiTag &&
decoded.sessionId` gates acceptance; `decoded.userId || null` maps falsy to
null).  `issuedAt` is carried by handoff tokens but never read by the
endpoint. -/
structure DecodedToken where
  waiTag : Option String
  sessionId : Option String
  userId : Option String
  issuedAt : Option Nat
deriving DecidableEq, Repr

/-- Responses of the endpoint: HTTP 400, HTTP 403, HTTP 200 success with the
carried identity, or HTTP 200 with `success: false` when the token does not
decode to the expected shape. -/
inductive VerifyTokenResponse where
  | badRequest (message : String)
  | forbidden (message : String)
  | ok (waiTag sessionId : String) (userId : Option String)
  | invalidToken (message : String)
deriving DecidableEq, Repr

/-- The guard `storage.isDomainVerified && domain && customerId` followed by
the awaited check: enforcement applies only when the storage hook exists and
both body fields are truthy, and it rejects exactly when the check returns
false.  `isDomainVerified?` is the optional storage hook; `customerId` is the
already-parsed integer (`parseInt(customerId)`). -/
def domainGateRejects (isDomainVerified? : Option (String → Nat → Bool))
    (domain : Option String) (customerId : Option Nat) : Bool :=
  match isDomainVerified?, domain, customerId with
  | some check, some d, some c => !(check d c)
  | _, _, _ => false

/-- The `POST /api/tracking/verify-cross-domain-token` handler.  `decode`
stands for `JSON.parse ∘ base64-decode` restricted to the fields the handler
reads (`none` when either library call throws).  Absent-or-falsy body fields
are `none`.  No cryptographic signature and no expiry are checked anywhere in
the handler. -/
def verifyCrossDomainToken (isDomainVerified? : Option (String → Nat → Bool))
    (decode : String → Option DecodedToken) (token : Option String)
    (domain : Option String) (customerId : Option Nat) : VerifyTokenResponse :=
  match token with
  | none => VerifyTokenResponse.badRequest "Token is required"
  | some t =>
    if domainGateRejects isDomainVerified? domain customerId then
      VerifyTokenResponse.forbidden
        "Domain not verified. Complete DNS verification before using cross-domain features."
    else
      match decode t with
      | some decoded =>
        match decoded.waiTag, decoded.sessionId with
        | some w, some sid => VerifyTokenResponse.ok w sid decoded.userId
        | _, _ => VerifyTokenResponse.invalidToken "Invalid or expired cross-domain token"
      | none => VerifyTokenResponse.invalidToken "Invalid or expired cross-domain token"

/-! ## DNS domain-ownership verification
(src/unnamed/part_000 lines 130-228 and src/server/index.ts lines 624-832) -/

/-- Outcome of the `resolver.resolveTxt(domain, ...)` call raced against the
10-second timeout timer: the timer fires first, the resolver reports an error
code, or it returns the TXT record sets (each record is a list of parts). -/
inductive DnsOutcome where
  | timeout
  | err (code : String)
  | ok (records : List (List String))
deriving DecidableEq, Repr

/-- Result shape of `verifyDomainOwnership`. -/
structure VerifyResult where
  verified : Bool
  error : Option String
deriving DecidableEq, Repr

/-- `verifyDomainOwnership(domain, expectedToken)`: compares each TXT record's
joined-and-trimmed value against `nylo-verify=<token>` (itself trimmed); DNS
errors with code ENODATA or ENOTFOUND report no-records-found, other codes
report lookup-failed, and the race timer reports timed-out. -/
def verifyDomainOwnership (domain expectedToken : String) (dns : DnsOutcome) :
    VerifyResult :=
  match dns with
  | DnsOutcome.timeout => ⟨false, some "DNS lookup timed out"⟩
  | DnsOutcome.err code =>
    if code = "ENODATA" ∨ code = "ENOTFOUND" then
      ⟨false, some ("No TXT records found for " ++ domain)⟩
    else
      ⟨false, some ("DNS lookup failed: " ++ code)⟩
  | DnsOutcome.ok records =>
    let expectedValue := "nylo-verify=" ++ expectedToken
    if records.any (fun recordParts => (String.join recordParts).trim == expectedValue.trim) then
      ⟨true, none⟩
    else
      ⟨false, some ("TXT record \"" ++ expectedValue ++ "\" not found. Found "
        ++ toString records.length ++ " TXT record(s) but none matched.")⟩

/-- Result shape of `checkSubdomainOwnership` and of the `/api/domains/verify`
DNS dispatch. -/
structure SubdomainCheck where
  verified : Bool
  method : String
  error : Option String
deriving DecidableEq, Repr

/-- `checkSubdomainOwnership(subdomain, subdomainToken, parentDomainVerified)`:
the subdomain's own TXT lookup runs first; a match wins with method
`subdomain_txt`, otherwise a verified parent wins with method
`parent_domain_verified`, otherwise the check fails with a reason.  `dns` is
the outcome of the subdomain's own lookup. -/
def checkSubdomainOwnership (subdomain subdomainToken : String)
    (parentDomainVerified : Bool) (dns : DnsOutcome) : SubdomainCheck :=
  let subdomainResult := verifyDomainOwnership subdomain subdomainToken dns
  if subdomainResult.verified then
    ⟨true, "subdomain_txt", none⟩
  else if parentDomainVerified then
    ⟨true, "parent_domain_verified", none⟩
  else
    ⟨false, "none",
      some ("Subdomain " ++ subdomain ++ " has no TXT record and parent domain is not verified")⟩

/-- JavaScript `str.split('.')` on character lists: splits at every dot,
keeping empty segments (`''.split('.')` is `['']`). -/
def splitDot : List Char → List (List Char)
  | [] => [[]]
  | c :: cs =>
    let rest := splitDot cs
    if c = '.' then [] :: rest
    else (c :: rest.head!) :: rest.tail

/-- `domain.split('.')` as the source uses it. -/
def domainLabels (domain : String) : List String :=
  (splitDot domain.data).map (fun cs => String.mk cs)

/-- `extractParentDomain(domain)`: `null` for two or fewer dot-separated
labels, otherwise the labels from the second on, rejoined with dots. -/
def extractParentDomain (domain : String) : Option String :=
  let parts := domainLabels domain
  if parts.length ≤ 2 then none
  else some (String.intercalate "." (parts.drop 1))

/-- The DNS dispatch of `POST /api/domains/verify` (lines 736-745): when the
domain has a parent, query the parent's verification status for the same
customer and run the subdomain check; otherwise run the direct TXT lookup,
tagged with method `direct_txt`.  `parentVerified` stands for
`storage.isDomainVerified(parentDomain, customer.id)` and `dns` for the
domain's own TXT lookup outcome. -/
def verifyRouteCheck (validDomain token : String) (parentVerified : String → Bool)
    (dns : DnsOutcome) : SubdomainCheck :=
  match extractParentDomain validDomain with
  | some parent => checkSubdomainOwnership validDomain token (parentVerified parent) dns
  | none =>
    let dnsResult := verifyDomainOwnership validDomain token dns
    ⟨dnsResult.verified, "direct_txt", dnsResult.error⟩

/-! ## `POST /api/domains/request-verification` (src/server/index.ts lines 626-690) -/

inductive VerificationStatus where
  | pending
  | verified
  | failed
deriving DecidableEq, Repr

/-- A stored DomainVerification record, keyed by (domain, customerId). -/
structure DomainVerificationRecord where
  domain : String
  customerId : Nat
  token : String
  status : VerificationStatus
deriving DecidableEq, Repr

/-- `storage.getDomainVerification(domain, customerId)` over a list-backed
store. -/
def getDomainVerification (db : List DomainVerificationRecord) (d : String)
    (c : Nat) : Option DomainVerificationRecord :=
  db.find? (fun r => r.domain == d && r.customerId == c)

/-- `getDnsRecordValue(token)` from src/unnamed/part_000. -/
def getDnsRecordValue (token : String) : String :=
  "nylo-verify=" ++ token

/-- Response of `POST /api/domains/request-verification`: either the untouched
verified record is reported, or a pending challenge with the token and the
exact TXT value to publish. -/
inductive RequestVerificationResponse where
  | alreadyVerified (domain : String)
  | pendingChallenge (domain token dnsValue : String)
deriving DecidableEq, Repr

/-- The `POST /api/domains/request-verification` handler after validation and
customer lookup.  `freshToken` stands for the `generateVerificationToken()`
call (16 random bytes in hex).  An existing verified record short-circuits
with no write; an existing non-verified record reuses its token
(`existing?.token || generateVerificationToken()` — the JS `||` falls back to
a fresh token only for a falsy stored token) and performs no write; only when
no record exists is a pending record persisted. -/
def requestVerification (db : List DomainVerificationRecord) (validDomain : String)
    (customerId : Nat) (freshToken : String) :
    List DomainVerificationRecord × RequestVerificationResponse :=
  match getDomainVerification db validDomain customerId with
  | some existing =>
    if existing.status = VerificationStatus.verified then
      (db, RequestVerificationResponse.alreadyVerified validDomain)
    else
      let token := if existing.token ≠ "" then existing.token else freshToken
      (db, RequestVerificationResponse.pendingChallenge validDomain token
        (getDnsRecordValue token))
  | none =>
    (db ++ [⟨validDomain, customerId, freshToken, VerificationStatus.pending⟩],
     RequestVerificationResponse.pendingChallenge validDomain freshToken
       (getDnsRecordValue freshToken))

/-! ## Client identity recovery `getStoredIdentityData` (src/src/nylo.js lines 393-414) -/

/-- What a storage tier read yields: the access throws (storage disabled), no
value is stored, or a value is present and `parsed` is what the tier's parser
makes of it.  For the cookie and sessionStorage tiers `parsed = none` means
`JSON.parse` (or `atob`) threw — caught by the surrounding try.  For the
localStorage tier `parsed = none` means `decryptIdentityData` returned null
(it catches its own errors and returns null rather than throwing). -/
inductive TierState (α : Type) where
  | throws
  | absent
  | present (parsed : Option α)
deriving DecidableEq, Repr

/-- `CrossDomainIdentity.getStoredIdentityData()`: reads the `nylo_wai`
cookie, then `localStorage['nylo_cross_domain_identity']`, then
`sessionStorage['nylo_session_identity']`.  A throwing or absent tier falls
through; a cookie whose data fails to parse falls through (the throw is
caught); but a present localStorage value is returned as
`return this.decryptIdentityData(encryptedData)` — including the null that
decryption failure produces, which ends the function without consulting
sessionStorage. -/
def getStoredIdentityData {α : Type} (cookieTier localTier sessionTier : TierState α) :
    Option α :=
  match cookieTier with
  | TierState.present (some identity) => some identity
  | _ =>
    match localTier with
    | TierState.present parsed => parsed
    | _ =>
      match sessionTier with
      | TierState.present (some identity) => some identity
      | _ => none

/-! ## Theorems -/

/-- Claim C1: for the `/api/track` dedup cache, submitting two events with the
same (sessionId, eventType, timestamp) triple, where the second arrives within
the configured dedup window after the first was accepted, results in exactly
one stored interaction (the second is skipped); and submitting the same triple
again after the window has elapsed is accepted and stored as a new event. -/
theorem track_dedup_idempotent_and_expiry (window : Nat) (ev : TrackEvent)
    (t0 t1 t2 : Nat)
    (hs : ev.sessionId ≠ "") (he : ev.eventType ≠ "") (hd : ev.domain ≠ "")
    (h1 : t1 < t0 + window) (h2 : ¬ t2 < t0 + window) :
    (trackHandler window ⟨[], []⟩ [(ev, true)] t0).1.interactions = [ev] ∧
    (trackHandler window (trackHandler window ⟨[], []⟩ [(ev, true)] t0).1
      [(ev, true)] t1).1.interactions = [ev] ∧
    (trackHandler window (trackHandler window ⟨[], []⟩ [(ev, true)] t0).1
      [(ev, true)] t1).2.eventsProcessed = 0 ∧
    (trackHandler window
      (trackHandler window (trackHandler window ⟨[], []⟩ [(ev, true)] t0).1
        [(ev, true)] t1).1 [(ev, true)] t2).1.interactions = [ev, ev] ∧
    (trackHandler window
      (trackHandler window (trackHandler window ⟨[], []⟩ [(ev, true)] t0).1
        [(ev, true)] t1).1 [(ev, true)] t2).2.eventsProcessed = 1 := by
  simp [trackHandler, trackBatch, processEvent, cacheGet, cacheSet,
    hs, he, hd, h1, h2]

/-- Concrete instance of `track_dedup_idempotent_and_expiry`. -/
theorem track_dedup_idempotent_and_expiry_witness :
    (trackHandler 60000
      (trackHandler 60000 (trackHandler 60000 ⟨[], []⟩
        [(⟨"s1", "page_view", "example.com", "123"⟩, true)] 0).1
        [(⟨"s1", "page_view", "example.com", "123"⟩, true)] 59999).1
      [(⟨"s1", "page_view", "example.com", "123"⟩, true)] 60000).1.interactions
      = [⟨"s1", "page_view", "example.com", "123"⟩,
         ⟨"s1", "page_view", "example.com", "123"⟩] :=
  (track_dedup_idempotent_and_expiry 60000 ⟨"s1", "page_view", "example.com", "123"⟩
    0 59999 60000 (by decide) (by decide) (by decide) (by decide) (by decide)).2.2.2.1

/-- Claim C10: in the `/api/track` handler the dedup key is written before the
storage attempt and is not removed on failure: if `storage.createInteraction`
throws for an event, the response is still HTTP 200 with `success: true` (the
event merely not counted in `eventsProcessed`), and resubmitting the same
(sessionId, eventType, timestamp) triple within the dedup window is skipped,
so the event is never stored. -/
theorem track_storage_failure_event_lost (window : Nat) (ev : TrackEvent)
    (t0 t1 : Nat)
    (hs : ev.sessionId ≠ "") (he : ev.eventType ≠ "") (hd : ev.domain ≠ "")
    (h1 : t1 < t0 + window) :
    (trackHandler window ⟨[], []⟩ [(ev, false)] t0).2 = ⟨200, true, 0, 1⟩ ∧
    (trackHandler window ⟨[], []⟩ [(ev, false)] t0).1.interactions = [] ∧
    cacheGet (trackHandler window ⟨[], []⟩ [(ev, false)] t0).1.dedupCache ev.key
      = some (t0 + window) ∧
    (trackHandler window (trackHandler window ⟨[], []⟩ [(ev, false)] t0).1
      [(ev, true)] t1).1.interactions = [] ∧
    (trackHandler window (trackHandler window ⟨[], []⟩ [(ev, false)] t0).1
      [(ev, true)] t1).2.eventsProcessed = 0 := by
  simp [trackHandler, trackBatch, processEvent, cacheGet, cacheSet,
    hs, he, hd, h1]

/-- Concrete instance of `track_storage_failure_event_lost`. -/
theorem track_storage_failure_event_lost_witness :
    (trackHandler 60000 (trackHandler 60000 ⟨[], []⟩
      [(⟨"s1", "click", "example.com", "456"⟩, false)] 0).1
      [(⟨"s1", "click", "example.com", "456"⟩, true)] 100).1.interactions = [] :=
  (track_storage_failure_event_lost 60000 ⟨"s1", "click", "example.com", "456"⟩
    0 100 (by decide) (by decide) (by decide) (by decide)).2.2.2.1

/-- Helper: a failed attempt followed by its retry requeue restores the queue
and leaves only the counters changed, as long as the retry path was taken and
the retry queue was empty. -/
theorem failThenRequeue_eq {α : Type} (s : PipelineState α)
    (h : s.retryCount < maxRetries) (hr : s.retryQueue = []) :
    failThenRequeue s =
      { s with retryCount := s.retryCount + 1, errors := s.errors + 1 } := by
  unfold failThenRequeue sendBatchFail retryTimerFire
  simp [h, hr, List.take_take, List.drop_take, List.take_append_drop]

/-- Counterexample to claim C2 as stated: with max retries N = 3, after three
consecutive send failures of a batch (each followed by its scheduled retry
requeue) the circuit breaker is still closed and a further send attempt does
occur — the third failure schedules another retry instead of opening the
breaker. -/
theorem circuit_breaker_not_open_after_three_failures :
    (sendBatchFail (failThenRequeue (failThenRequeue
      (⟨0, false, [1], [], 0, 0⟩ : PipelineState Nat)))).2
      = FailEffect.retryScheduled 4000 ∧
    (failThenRequeue (failThenRequeue (failThenRequeue
      (⟨0, false, [1], [], 0, 0⟩ : PipelineState Nat)))).isCircuitBreakerOpen
      = false ∧
    sendAttemptOccurs (failThenRequeue (failThenRequeue (failThenRequeue
      (⟨0, false, [1], [], 0, 0⟩ : PipelineState Nat)))) = true := by
  decide

/-- Claim C2 (amended): the breaker opens after maxRetries + 1 = 4 consecutive
send failures of a batch — the initial attempt plus the three scheduled
retries — not after 3.  The first three failures schedule retries (so send
attempts continue); the fourth failure opens the circuit breaker for the fixed
30000 ms cooldown, during which no send attempt occurs; the cooldown timer
closes the breaker and resets the retry counter, after which a send attempt
occurs again whenever the queue is non-empty. -/
theorem circuit_breaker_opens_after_four_failures {α : Type}
    (s0 : PipelineState α)
    (h0 : s0.retryCount = 0) (hb : s0.isCircuitBreakerOpen = false)
    (hr : s0.retryQueue = []) (hq : s0.eventQueue ≠ []) :
    (sendBatchFail s0).2 = FailEffect.retryScheduled 1000 ∧
    (sendBatchFail (failThenRequeue s0)).2 = FailEffect.retryScheduled 2000 ∧
    (sendBatchFail (failThenRequeue (failThenRequeue s0))).2
      = FailEffect.retryScheduled 4000 ∧
    sendAttemptOccurs (failThenRequeue (failThenRequeue (failThenRequeue s0)))
      = true ∧
    (sendBatchFail (failThenRequeue (failThenRequeue (failThenRequeue s0)))).2
      = FailEffect.breakerOpened 30000 ∧
    (sendBatchFail (failThenRequeue (failThenRequeue
      (failThenRequeue s0)))).1.isCircuitBreakerOpen = true ∧
    (∀ t : PipelineState α, t.isCircuitBreakerOpen = true →
      sendAttemptOccurs t = false) ∧
    (cooldownTimerFire (sendBatchFail (failThenRequeue (failThenRequeue
      (failThenRequeue s0)))).1).isCircuitBreakerOpen = false ∧
    (cooldownTimerFire (sendBatchFail (failThenRequeue (failThenRequeue
      (failThenRequeue s0)))).1).retryCount = 0 ∧
    (∀ t : PipelineState α, t.isCircuitBreakerOpen = false →
      t.eventQueue ≠ [] → sendAttemptOccurs t = true) := by
  have e1 : failThenRequeue s0 =
      { s0 with retryCount := s0.retryCount + 1, errors := s0.errors + 1 } :=
    failThenRequeue_eq s0 (by simp [h0, maxRetries]) hr
  have e2 : failThenRequeue (failThenRequeue s0) =
      { s0 with retryCount := s0.retryCount + 2, errors := s0.errors + 2 } := by
    rw [e1, failThenRequeue_eq] <;> simp [h0, hr, maxRetries]
  have e3 : failThenRequeue (failThenRequeue (failThenRequeue s0)) =
      { s0 with retryCount := s0.retryCount + 3, errors := s0.errors + 3 } := by
    rw [e2, failThenRequeue_eq] <;> simp [h0, hr, maxRetries]
  refine ⟨?_, ?_, ?_, ?_, ?_, ?_, ?_, ?_, ?_, ?_⟩
  · simp [sendBatchFail, h0, maxRetries]
  · rw [e1]; simp [sendBatchFail, h0, maxRetries]
  · rw [e2]; simp [sendBatchFail, h0, maxRetries]
  · rw [e3]; simp [sendAttemptOccurs, hb, hq]
  · rw [e3]; simp [sendBatchFail, h0, maxRetries, circuitBreakerCooldownMs]
  · rw [e3]; simp [sendBatchFail, h0, maxRetries]
  · intro t ht; simp [sendAttemptOccurs, ht]
  · rw [e3]; simp [sendBatchFail, cooldownTimerFire, h0, maxRetries]
  · rw [e3]; simp [sendBatchFail, cooldownTimerFire, h0, maxRetries]
  · intro t ht htq; simp [sendAttemptOccurs, ht, htq]

/-- Concrete instance of `circuit_breaker_opens_after_four_failures`. -/
theorem circuit_breaker_opens_after_four_failures_witness :
    (sendBatchFail (failThenRequeue (failThenRequeue (failThenRequeue
      (⟨0, false, [1], [], 0, 0⟩ : PipelineState Nat))))).2
      = FailEffect.breakerOpened 30000 :=
  (circuit_breaker_opens_after_four_failures
    (⟨0, false, [1], [], 0, 0⟩ : PipelineState Nat)
    rfl rfl rfl (by decide)).2.2.2.2.1

/-- Claim C3: for a single batch undergoing consecutive send failures, the
k-th retry is scheduled after a delay equal to the 1000 ms base delay times
`2 ^ retryCount` (with `retryCount` incremented after each failure), so
successive retry delays strictly increase until the circuit breaker opens. -/
theorem backoff_delay_exponential {α : Type} (s : PipelineState α)
    (h : s.retryCount < maxRetries) :
    (sendBatchFail s).2 = FailEffect.retryScheduled (2 ^ s.retryCount * 1000) ∧
    (sendBatchFail s).1.retryCount = s.retryCount + 1 ∧
    ((sendBatchFail s).1.retryCount < maxRetries →
      2 ^ s.retryCount * 1000 < 2 ^ (sendBatchFail s).1.retryCount * 1000) := by
  refine ⟨by simp [sendBatchFail, h], by simp [sendBatchFail, h], ?_⟩
  intro _
  have hstep : (sendBatchFail s).1.retryCount = s.retryCount + 1 := by
    simp [sendBatchFail, h]
  rw [hstep]
  have h2 : (2 : Nat) ^ s.retryCount < 2 ^ (s.retryCount + 1) :=
    Nat.pow_lt_pow_succ (by norm_num)
  omega

/-- Concrete instance of `backoff_delay_exponential`. -/
theorem backoff_delay_exponential_witness :
    (sendBatchFail (⟨1, false, [1], [], 1, 0⟩ : PipelineState Nat)).2
      = FailEffect.retryScheduled 2000 ∧
    2 ^ 1 * 1000 < 2 ^ (sendBatchFail
      (⟨1, false, [1], [], 1, 0⟩ : PipelineState Nat)).1.retryCount * 1000 :=
  ⟨(backoff_delay_exponential (⟨1, false, [1], [], 1, 0⟩ : PipelineState Nat)
      (by decide)).1,
   (backoff_delay_exponential (⟨1, false, [1], [], 1, 0⟩ : PipelineState Nat)
      (by decide)).2.2 (by decide)⟩

/-- Claim C4: for every request to `POST /api/tracking/verify-cross-domain-token`
where domain verification is enforced (`storage.isDomainVerified` is provided
and the body carries `domain` and `customerId`) and the domain is not verified
for that customer, the response is HTTP 403 with a domain-unverified message,
for every token value and every decoder — the token is never decoded. -/
theorem verify_token_unverified_domain_403
    (check : String → Nat → Bool) (decode : String → Option DecodedToken)
    (d : String) (c : Nat) (t : String) (h : check d c = false) :
    verifyCrossDomainToken (some check) decode (some t) (some d) (some c)
      = VerifyTokenResponse.forbidden
        "Domain not verified. Complete DNS verification before using cross-domain features." := by
  simp [verifyCrossDomainToken, domainGateRejects, h]

/-- Concrete instance of `verify_token_unverified_domain_403`: a perfectly
valid token is still rejected with 403. -/
theorem verify_token_unverified_domain_403_witness :
    verifyCrossDomainToken (some (fun _ _ => false))
      (fun _ => some ⟨some "wai_abc_def", some "session-1", none, some 0⟩)
      (some "goodtoken") (some "b.example.com") (some 1)
      = VerifyTokenResponse.forbidden
        "Domain not verified. Complete DNS verification before using cross-domain features." :=
  verify_token_unverified_domain_403 (fun _ _ => false)
    (fun _ => some ⟨some "wai_abc_def", some "session-1", none, some 0⟩)
    "b.example.com" 1 "goodtoken" rfl

/-- Claim C5: every token that passes the domain-verification gate and whose
base64 decoding parses as JSON containing both a `waiTag` and a `sessionId`
field is answered with success carrying exactly that identity (`waiTag`,
`sessionId`, `userId` defaulting to null), for every `issuedAt` the token may
carry — no cryptographic signature is checked and no token expiry is
enforced (the handler never consults a clock or a key). -/
theorem verify_token_accepts_decoded_identity
    (isDomainVerified? : Option (String → Nat → Bool))
    (decode : String → Option DecodedToken)
    (t : String) (domain : Option String) (customerId : Option Nat)
    (w sid : String) (userId : Option String) (issuedAt : Option Nat)
    (hgate : domainGateRejects isDomainVerified? domain customerId = false)
    (hdec : decode t = some ⟨some w, some sid, userId, issuedAt⟩) :
    verifyCrossDomainToken isDomainVerified? decode (some t) domain customerId
      = VerifyTokenResponse.ok w sid userId := by
  simp [verifyCrossDomainToken, hgate, hdec]

/-- Concrete instance of `verify_token_accepts_decoded_identity`: a token whose
`issuedAt` lies arbitrarily far in the past is accepted as authoritative. -/
theorem verify_token_accepts_decoded_identity_witness :
    verifyCrossDomainToken none
      (fun _ => some ⟨some "wai_k2_x9", some "session-2", some "user-7", some 1⟩)
      (some "tok") (some "b.example.com") none
      = VerifyTokenResponse.ok "wai_k2_x9" "session-2" (some "user-7") :=
  verify_token_accepts_decoded_identity none
    (fun _ => some ⟨some "wai_k2_x9", some "session-2", some "user-7", some 1⟩)
    "tok" (some "b.example.com") none "wai_k2_x9" "session-2" (some "user-7")
    (some 1) rfl rfl

/-- Claim C6: for every domain and expected token, `verifyDomainOwnership`
succeeds exactly when some returned TXT record, with its parts joined and
surrounding whitespace trimmed, equals `nylo-verify=<token>` (also trimmed);
any other value, no records, or a DNS error yields `verified = false` together
with a descriptive reason, and the reason distinguishes no-records-found
(ENODATA/ENOTFOUND) from lookup-failed (other codes) and timed-out. -/
theorem verifyDomainOwnership_characterization (domain tok : String)
    (dns : DnsOutcome) :
    ((verifyDomainOwnership domain tok dns).verified = true ↔
      ∃ records, dns = DnsOutcome.ok records ∧
        ∃ recordParts ∈ records,
          (String.join recordParts).trim = ("nylo-verify=" ++ tok).trim) ∧
    ((verifyDomainOwnership domain tok dns).verified = false →
      ∃ reason, (verifyDomainOwnership domain tok dns).error = some reason) ∧
    (∀ code, code = "ENODATA" ∨ code = "ENOTFOUND" →
      (verifyDomainOwnership domain tok (DnsOutcome.err code)).error
        = some ("No TXT records found for " ++ domain)) ∧
    (∀ code, ¬(code = "ENODATA" ∨ code = "ENOTFOUND") →
      (verifyDomainOwnership domain tok (DnsOutcome.err code)).error
        = some ("DNS lookup failed: " ++ code)) ∧
    (verifyDomainOwnership domain tok DnsOutcome.timeout).error
      = some "DNS lookup timed out" := by
  refine ⟨?_, ?_, ?_, ?_, ?_⟩
  · cases dns with
    | timeout => simp [verifyDomainOwnership]
    | err code =>
      simp only [verifyDomainOwnership]
      split <;> simp
    | ok records =>
      simp only [verifyDomainOwnership]
      split
      next h =>
        simp only [List.any_eq_true, beq_iff_eq] at h
        simpa using h
      next h =>
        simp only [List.any_eq_true, beq_iff_eq] at h
        push_neg at h
        simp only [Bool.false_eq_true, false_iff]
        rintro ⟨records', hrec, parts, hmem, htrim⟩
        cases hrec
        exact absurd htrim (h parts hmem)
  · cases dns with
    | timeout => simp [verifyDomainOwnership]
    | err code =>
      simp only [verifyDomainOwnership]
      split <;> simp
    | ok records =>
      simp only [verifyDomainOwnership]
      split <;> simp
  · intro code hcode; simp [verifyDomainOwnership, hcode]
  · intro code hcode; simp [verifyDomainOwnership, hcode]
  · simp [verifyDomainOwnership]

/-- Concrete instance of `verifyDomainOwnership_characterization`: an exact
TXT record verifies, and an ENODATA error reports no-records-found. -/
theorem verifyDomainOwnership_characterization_witness :
    (verifyDomainOwnership "example.com" "abc123"
      (DnsOutcome.ok [["nylo-verify=abc123"]])).verified = true ∧
    (verifyDomainOwnership "example.com" "abc123" (DnsOutcome.err "ENODATA")).error
      = some "No TXT records found for example.com" :=
  ⟨(verifyDomainOwnership_characterization "example.com" "abc123"
      (DnsOutcome.ok [["nylo-verify=abc123"]])).1.mpr
      ⟨[["nylo-verify=abc123"]], rfl, ["nylo-verify=abc123"], by decide,
        congrArg String.trim (by decide)⟩,
   (verifyDomainOwnership_characterization "example.com" "abc123"
      (DnsOutcome.err "ENODATA")).2.2.1 "ENODATA" (Or.inl rfl)⟩

/-- Claim C7: for every subdomain (more than two dot-separated labels)
verified via `POST /api/domains/verify`, the subdomain's own TXT lookup is
consulted first; if it matches, verification succeeds with the subdomain's own
direct-TXT method (`subdomain_txt`); if it does not match but the parent
domain is verified for the same customer, verification succeeds via parent
inheritance; if neither holds, verification fails with a reason. -/
theorem subdomain_verification_inheritance (d tok : String)
    (parentVerified : String → Bool) (dns : DnsOutcome)
    (hsub : 2 < (domainLabels d).length) :
    ((verifyDomainOwnership d tok dns).verified = true →
      verifyRouteCheck d tok parentVerified dns = ⟨true, "subdomain_txt", none⟩) ∧
    ((verifyDomainOwnership d tok dns).verified = false →
      parentVerified (String.intercalate "." ((domainLabels d).drop 1)) = true →
      verifyRouteCheck d tok parentVerified dns
        = ⟨true, "parent_domain_verified", none⟩) ∧
    ((verifyDomainOwnership d tok dns).verified = false →
      parentVerified (String.intercalate "." ((domainLabels d).drop 1)) = false →
      verifyRouteCheck d tok parentVerified dns
        = ⟨false, "none",
            some ("Subdomain " ++ d
              ++ " has no TXT record and parent domain is not verified")⟩) := by
  have hparent : extractParentDomain d
      = some (String.intercalate "." ((domainLabels d).drop 1)) := by
    simp [extractParentDomain, Nat.not_le_of_lt hsub, hsub]
  refine ⟨?_, ?_, ?_⟩
  · intro hown
    simp [verifyRouteCheck, hparent, checkSubdomainOwnership, hown]
  · intro hown hpv
    simp only [List.drop_one] at hpv
    simp [verifyRouteCheck, hparent, checkSubdomainOwnership, hown, hpv]
  · intro hown hpv
    simp only [List.drop_one] at hpv
    simp [verifyRouteCheck, hparent, checkSubdomainOwnership, hown, hpv]

/-- Concrete instance of `subdomain_verification_inheritance`:
`blog.example.com` with no matching own TXT record verifies by inheritance
when `example.com` is verified for the customer. -/
theorem subdomain_verification_inheritance_witness :
    verifyRouteCheck "blog.example.com" "abc123"
      (fun parent => parent == "example.com") (DnsOutcome.err "ENODATA")
      = ⟨true, "parent_domain_verified", none⟩ :=
  (subdomain_verification_inheritance "blog.example.com" "abc123"
    (fun parent => parent == "example.com") (DnsOutcome.err "ENODATA")
    (by decide)).2.1 (by decide) (by decide)

/-- Claim C8: `POST /api/domains/request-verification` is idempotent: a
verified record for (domain, customerId) is returned unchanged with no
mutation; a non-verified record's existing (non-empty) token is reused — never
rotated — and no record is created; only when no record exists is the fresh
random token minted and a record persisted in pending status. -/
theorem requestVerification_idempotent (db : List DomainVerificationRecord)
    (d : String) (c : Nat) (freshToken : String) :
    (∀ existing, getDomainVerification db d c = some existing →
      existing.status = VerificationStatus.verified →
      requestVerification db d c freshToken
        = (db, RequestVerificationResponse.alreadyVerified d)) ∧
    (∀ existing, getDomainVerification db d c = some existing →
      existing.status ≠ VerificationStatus.verified → existing.token ≠ "" →
      requestVerification db d c freshToken
        = (db, RequestVerificationResponse.pendingChallenge d existing.token
            (getDnsRecordValue existing.token))) ∧
    (getDomainVerification db d c = none →
      requestVerification db d c freshToken
        = (db ++ [⟨d, c, freshToken, VerificationStatus.pending⟩],
           RequestVerificationResponse.pendingChallenge d freshToken
             (getDnsRecordValue freshToken))) := by
  refine ⟨?_, ?_, ?_⟩
  · intro existing hfind hst
    simp [requestVerification, hfind, hst]
  · intro existing hfind hst htok
    simp [requestVerification, hfind, hst, htok]
  · intro hfind
    simp [requestVerification, hfind]

/-- Concrete instance of `requestVerification_idempotent`: a second request
for a pending domain reuses the stored token, ignoring the freshly minted one,
and leaves the store untouched. -/
theorem requestVerification_idempotent_witness :
    requestVerification [⟨"example.com", 1, "aabbcc", VerificationStatus.pending⟩]
      "example.com" 1 "ddeeff"
      = ([⟨"example.com", 1, "aabbcc", VerificationStatus.pending⟩],
         RequestVerificationResponse.pendingChallenge "example.com" "aabbcc"
           (getDnsRecordValue "aabbcc")) :=
  (requestVerification_idempotent
    [⟨"example.com", 1, "aabbcc", VerificationStatus.pending⟩]
    "example.com" 1 "ddeeff").2.1
    ⟨"example.com", 1, "aabbcc", VerificationStatus.pending⟩
    (by decide) (by decide) (by decide)

/-- Counterexample to claim C9 as stated: the claim says a malformed tier is
skipped rather than aborting recovery, but when the durable-local tier holds a
value that `decryptIdentityData` cannot decode, `getStoredIdentityData`
returns that null directly and never consults session storage — so a valid
session-storage identity is not recovered. -/
theorem getStoredIdentityData_malformed_local_aborts :
    getStoredIdentityData TierState.absent (TierState.present none)
      (TierState.present (some 7)) = none ∧
    getStoredIdentityData TierState.absent (TierState.present none)
      (TierState.present (some 7)) ≠ some 7 := by
  decide

/-- Claim C9 (amended): `getStoredIdentityData` reads the tiers in the fixed
priority order cookie, then durable local storage, then session storage, and
returns the identity of the first tier that parses; a throwing or absent tier
is skipped, and a cookie whose value fails to parse is skipped too — but a
durable-local value that is present and fails to decrypt makes the function
return null immediately, without consulting session storage; null is returned
when no tier yields an identity. -/
theorem getStoredIdentityData_priority (α : Type)
    (cookieTier localTier sessionTier : TierState α) :
    (∀ identity, cookieTier = TierState.present (some identity) →
      getStoredIdentityData cookieTier localTier sessionTier = some identity) ∧
    ((∀ identity, cookieTier ≠ TierState.present (some identity)) →
      ∀ parsed, localTier = TierState.present parsed →
      getStoredIdentityData cookieTier localTier sessionTier = parsed) ∧
    ((∀ identity, cookieTier ≠ TierState.present (some identity)) →
      (∀ parsed, localTier ≠ TierState.present parsed) →
      ∀ identity, sessionTier = TierState.present (some identity) →
      getStoredIdentityData cookieTier localTier sessionTier = some identity) ∧
    ((∀ identity, cookieTier ≠ TierState.present (some identity)) →
      (∀ parsed, localTier ≠ TierState.present parsed) →
      (∀ identity, sessionTier ≠ TierState.present (some identity)) →
      getStoredIdentityData cookieTier localTier sessionTier = none) := by
  refine ⟨?_, ?_, ?_, ?_⟩
  · rintro identity rfl
    simp [getStoredIdentityData]
  · intro hc parsed hl
    cases cookieTier with
    | present p =>
      cases p with
      | none => simp [getStoredIdentityData, hl]
      | some identity => exact absurd rfl (hc identity)
    | throws => simp [getStoredIdentityData, hl]
    | absent => simp [getStoredIdentityData, hl]
  · intro hc hl identity hs
    cases cookieTier with
    | present p =>
      cases p with
      | none =>
        cases localTier with
        | present q => exact absurd rfl (hl q)
        | throws => simp [getStoredIdentityData, hs]
        | absent => simp [getStoredIdentityData, hs]
      | some identity2 => exact absurd rfl (hc identity2)
    | throws =>
      cases localTier with
      | present q => exact absurd rfl (hl q)
      | throws => simp [getStoredIdentityData, hs]
      | absent => simp [getStoredIdentityData, hs]
    | absent =>
      cases localTier with
      | present q => exact absurd rfl (hl q)
      | throws => simp [getStoredIdentityData, hs]
      | absent => simp [getStoredIdentityData, hs]
  · intro hc hl hs
    cases cookieTier with
    | present p =>
      cases p with
      | none =>
        cases localTier with
        | present q => exact absurd rfl (hl q)
        | throws =>
          cases sessionTier with
          | present r =>
            cases r with
            | none => simp [getStoredIdentityData]
            | some identity => exact absurd rfl (hs identity)
          | throws => simp [getStoredIdentityData]
          | absent => simp [getStoredIdentityData]
        | absent =>
          cases sessionTier with
          | present r =>
            cases r with
            | none => simp [getStoredIdentityData]
            | some identity => exact absurd rfl (hs identity)
          | throws => simp [getStoredIdentityData]
          | absent => simp [getStoredIdentityData]
      | some identity2 => exact absurd rfl (hc identity2)
    | throws =>
      cases localTier with
      | present q => exact absurd rfl (hl q)
      | throws =>
        cases sessionTier with
        | present r =>
          cases r with
          | none => simp [getStoredIdentityData]
          | some identity => exact absurd rfl (hs identity)
        | throws => simp [getStoredIdentityData]
        | absent => simp [getStoredIdentityData]
      | absent =>
        cases sessionTier with
        | present r =>
          cases r with
          | none => simp [getStoredIdentityData]
          | some identity => exact absurd rfl (hs identity)
        | throws => simp [getStoredIdentityData]
        | absent => simp [getStoredIdentityData]
    | absent =>
      cases localTier with
      | present q => exact absurd rfl (hl q)
      | throws =>
        cases sessionTier with
        | present r =>
          cases r with
          | none => simp [getStoredIdentityData]
          | some identity => exact absurd rfl (hs identity)
        | throws => simp [getStoredIdentityData]
        | absent => simp [getStoredIdentityData]
      | absent =>
        cases sessionTier with
        | present r =>
          cases r with
          | none => simp [getStoredIdentityData]
          | some identity => exact absurd rfl (hs identity)
        | throws => simp [getStoredIdentityData]
        | absent => simp [getStoredIdentityData]

/-- Concrete instance of `getStoredIdentityData_priority`: a parsing cookie
wins over both other tiers. -/
theorem getStoredIdentityData_priority_witness :
    getStoredIdentityData (TierState.present (some 5)) (TierState.present (some 6))
      (TierState.present (some 7)) = some 5 :=
  (getStoredIdentityData_priority Nat (TierState.present (some 5))
    (TierState.present (some 6)) (TierState.present (some 7))).1 5 rfl

end Nylo
